import Mathlib

/-!
Shallow embedding of `ewmh/ewmh.py` (class `EWMH`), the pyewmh library: a
marshaling layer between named EWMH properties and X11 property/client-message
primitives.  The X connection (`Xlib`) is mocked: each getter takes the reply
that `win.get_full_property` would produce for the queried property, each
atom-name lookup is a function `Nat → Option String`, and each setter returns
the `ClientMessage` event it builds and sends on the root window.
-/

set_option autoImplicit false

namespace Ewmh

/-- An X window resource as produced by `display.create_resource_object('window', id)`;
equality is identity of the underlying id. -/
structure Window where
  id : Nat
deriving DecidableEq, Repr

/-- The value carried by an X property reply: a 32-bit integer array
(format 32, e.g. CARDINAL/WINDOW/ATOM arrays) or text (format 8). -/
inductive XData where
  | ints (l : List Nat)
  | text (s : String)
deriving DecidableEq, Repr

/-- Python exceptions the library can raise on the modelled paths. -/
inductive PyErr where
  | indexError
  | keyError (msg : String)
  | typeError (method : String)
deriving DecidableEq, Repr

/-- A Python value returned by a getter: an integer, a string, a window
resource, or `None`. -/
inductive PyVal where
  | int (n : Nat)
  | str (s : String)
  | window (w : Window)
  | pynone
deriving DecidableEq, Repr

/-- Python truthiness of a property value: `[]` and the empty string are
falsy, everything else truthy. -/
def XData.toBool : XData → Bool
  | .ints l => !l.isEmpty
  | .text s => !s.isEmpty

/-- Python subscript `value[0]` on a property value: `IndexError` when the
value is empty; on text it yields the first one-character string. -/
def XData.item0 : XData → Except PyErr PyVal
  | .ints [] => .error .indexError
  | .ints (n :: _) => .ok (.int n)
  | .text s =>
      match s.data with
      | [] => .error .indexError
      | c :: _ => .ok (.str (String.mk [c]))

/-- Embeds `EWMH._getProperty`: `win.get_full_property(atom, AnyPropertyType)` is
mocked by `resp`; a reply yields `atom.value`, no reply yields the Python
`[]` (here `XData.ints []`). -/
def getPropertyRaw (resp : Option XData) : XData :=
  match resp with
  | some atom => atom
  | none => .ints []

/-- Embeds `EWMH._getProperty` specialised to a format-32 property, the reply value
being its integer array. -/
def getPropertyInts (resp : Option (List Nat)) : List Nat :=
  match resp with
  | some atom => atom
  | none => []

/-- Embeds `EWMH._createWindow`: a falsy id (`None` or `0`) gives `None`, any other id
is resolved to a window resource with that id. -/
def createWindow (wId : Option Nat) : Option Window :=
  match wId with
  | none => none
  | some 0 => none
  | some wId => some ⟨wId⟩

/-- Embeds `EWMH._getAtomName`: `display.get_atom_name(atom)` with any failure mapped
to `'UNKNOWN'`.  The connection's atom-name table is mocked by `names`; a
code it does not know makes `get_atom_name` raise, hence the `Option`. -/
def getAtomName (names : Nat → Option String) (atom : Nat) : String :=
  match names atom with
  | some n => n
  | none => "UNKNOWN"

/-- Embeds `EWMH.getClientList`: each id of the `_NET_CLIENT_LIST` WINDOW array is
passed through `_createWindow`. -/
def getClientList (resp : Option (List Nat)) : List (Option Window) :=
  (getPropertyInts resp).map (fun w => createWindow (some w))

/-- Embeds `EWMH.getClientListStacking`: same conversion for
`_NET_CLIENT_LIST_STACKING`. -/
def getClientListStacking (resp : Option (List Nat)) : List (Option Window) :=
  (getPropertyInts resp).map (fun w => createWindow (some w))

/-- Embeds `EWMH.getNumberOfDesktops`: `self._getProperty('_NET_NUMBER_OF_DESKTOPS')[0]`. -/
def getNumberOfDesktops (resp : Option XData) : Except PyErr PyVal :=
  (getPropertyRaw resp).item0

/-- Embeds `EWMH.getDesktopGeometry`: the raw integer array is returned unchanged. -/
def getDesktopGeometry (resp : Option (List Nat)) : List Nat :=
  getPropertyInts resp

/-- Embeds `EWMH.getDesktopViewPort`: the raw integer array is returned unchanged. -/
def getDesktopViewPort (resp : Option (List Nat)) : List Nat :=
  getPropertyInts resp

/-- Embeds `EWMH.getCurrentDesktop`: `self._getProperty('_NET_CURRENT_DESKTOP')[0]`. -/
def getCurrentDesktop (resp : Option XData) : Except PyErr PyVal :=
  (getPropertyRaw resp).item0

/-- Embeds `EWMH.getActiveWindow`: an absent or empty `_NET_ACTIVE_WINDOW` gives
`None`, otherwise the first id is resolved through `_createWindow`. -/
def getActiveWindow (resp : Option (List Nat)) : Option Window :=
  match getPropertyInts resp with
  | [] => none
  | wId :: _ => createWindow (some wId)

/-- Embeds `EWMH.getWorkArea`: the raw integer array is returned unchanged. -/
def getWorkArea (resp : Option (List Nat)) : List Nat :=
  getPropertyInts resp

/-- Embeds `EWMH.getShowingDesktop`: `self._getProperty('_NET_SHOWING_DESKTOP')[0]`. -/
def getShowingDesktop (resp : Option XData) : Except PyErr PyVal :=
  (getPropertyRaw resp).item0

/-- Embeds `EWMH.getWmName`: the raw property value is returned unchanged (so an
absent property decodes to the empty `[]`, not to an error). -/
def getWmName (resp : Option XData) : XData :=
  getPropertyRaw resp

/-- Embeds `EWMH.getWmVisibleName`: the raw property value, unchanged. -/
def getWmVisibleName (resp : Option XData) : XData :=
  getPropertyRaw resp

/-- Embeds `EWMH.getWmDesktop`: `arr[0] if arr else None`. -/
def getWmDesktop (resp : Option XData) : Except PyErr PyVal :=
  let arr := getPropertyRaw resp
  if arr.toBool then arr.item0 else .ok .pynone

/-- Embeds `EWMH.getWmWindowType`: the ATOM array of `_NET_WM_WINDOW_TYPE`; with
`asStr` each code is resolved through `_getAtomName`. -/
def getWmWindowType (names : Nat → Option String) (resp : Option (List Nat))
    (asStr : Bool) : List PyVal :=
  let types := getPropertyInts resp
  if !asStr then types.map .int
  else types.map (fun t => .str (getAtomName names t))

/-- Embeds `EWMH.getWmState`: the ATOM array of `_NET_WM_STATE`; with `asStr` each
code is resolved through `_getAtomName`. -/
def getWmState (names : Nat → Option String) (resp : Option (List Nat))
    (asStr : Bool) : List PyVal :=
  let states := getPropertyInts resp
  if !asStr then states.map .int
  else states.map (fun s => .str (getAtomName names s))

/-- Embeds `EWMH.getWmAllowedActions`: the ATOM array of `_NET_WM_ALLOWED_ACTIONS`;
with `asStr` each code is resolved through `_getAtomName`. -/
def getWmAllowedActions (names : Nat → Option String) (resp : Option (List Nat))
    (asStr : Bool) : List PyVal :=
  let wAllowedActions := getPropertyInts resp
  if !asStr then wAllowedActions.map .int
  else wAllowedActions.map (fun a => .str (getAtomName names a))

/-- Embeds `EWMH.getWmPid`: `arr[0] if arr else None`. -/
def getWmPid (resp : Option XData) : Except PyErr PyVal :=
  let arr := getPropertyRaw resp
  if arr.toBool then arr.item0 else .ok .pynone

/-! ### Encode side: `EWMH._setProperty` and the named setters

Each setter builds a `ClientMessage` event and sends it on the root window
with `send_event`; the model returns that event.  Time-dependent inputs
(`time.mktime(time.localtime())`) and the connection's atom intern table
(`display.get_atom`) are explicit parameters. -/

/-- Payload handed to `EWMH._setProperty`: text or an integer list.  Slots are
`Int` because Python forwards the caller's (possibly negative) coordinates
untouched; Xlib packs them as 32-bit words later. -/
inductive PyData where
  | text (s : String)
  | ints (l : List Int)
deriving DecidableEq, Repr

/-- Value of `X.SubstructureRedirectMask | X.SubstructureNotifyMask`, the default event
mask of `_setProperty`. -/
def defaultEventMask : Nat := 0x00100000 ||| 0x00080000

/-- Value of `X.CurrentTime`. -/
def X_CurrentTime : Int := 0

/-- The ClientMessage event `EWMH._setProperty` builds and sends on the root
window: its `window` field, the message type (kept as the property name the
atom was interned from), the data format (8 for text, 32 for integer data),
the payload, and the event mask passed to `send_event`. -/
structure ClientMessage where
  window : Window
  client_type : String
  dataSize : Nat
  data : PyData
  event_mask : Nat
deriving DecidableEq, Repr

/-- Embeds `EWMH._setProperty`: a falsy `win` (i.e. `None`) is replaced by the root
window; text keeps format 8 and is sent unpadded; an integer list is
right-padded with zeros and truncated to five slots
(`(data+[0]*(5-len(data)))[:5]`) with format 32; a falsy mask (`None` or `0`)
is replaced by the default substructure-redirect/notify mask. -/
def setPropertyEv (root : Window) (t : String) (data : PyData)
    (win : Option Window) (mask : Option Nat) : ClientMessage :=
  let w := match win with
    | none => root
    | some w => w
  let sized : Nat × PyData := match data with
    | .text s => (8, .text s)
    | .ints l => (32, .ints ((l ++ List.replicate (5 - l.length) 0).take 5))
  { window := w
    client_type := t
    dataSize := sized.1
    data := sized.2
    event_mask := match mask with
      | none => defaultEventMask
      | some 0 => defaultEventMask
      | some m => m }

/-- Models `int(show)` for the `int | bool` parameter of `setShowingDesktop`. -/
inductive IntOrBool where
  | int (i : Int)
  | bool (b : Bool)
deriving DecidableEq, Repr

/-- Python `int(...)` on an `int | bool` value. -/
def IntOrBool.toInt : IntOrBool → Int
  | .int i => i
  | .bool b => if b then 1 else 0

/-- The `int | str` states accepted by `setWmState`. -/
inductive IntOrStr where
  | int (i : Int)
  | str (s : String)
deriving DecidableEq, Repr

/-- State normalisation of `setWmState`: a non-int state is interned with
`display.get_atom(state, True)` (creating the atom if needed), mocked by
`getAtom`. -/
def resolveState (getAtom : String → Nat) : IntOrStr → Int
  | .int i => i
  | .str s => (getAtom s : Int)

/-- Embeds `EWMH.setNumberOfDesktops`. -/
def setNumberOfDesktops (root : Window) (nb : Int) : ClientMessage :=
  setPropertyEv root "_NET_NUMBER_OF_DESKTOPS" (.ints [nb]) none none

/-- Embeds `EWMH.setDesktopGeometry`. -/
def setDesktopGeometry (root : Window) (w h : Int) : ClientMessage :=
  setPropertyEv root "_NET_DESKTOP_GEOMETRY" (.ints [w, h]) none none

/-- Embeds `EWMH.setDesktopViewport`. -/
def setDesktopViewport (root : Window) (w h : Int) : ClientMessage :=
  setPropertyEv root "_NET_DESKTOP_VIEWPORT" (.ints [w, h]) none none

/-- Embeds `EWMH.setCurrentDesktop`. -/
def setCurrentDesktop (root : Window) (i : Int) : ClientMessage :=
  setPropertyEv root "_NET_CURRENT_DESKTOP" (.ints [i, X_CurrentTime]) none none

/-- Embeds `EWMH.setActiveWindow`. -/
def setActiveWindow (root : Window) (win : Window) : ClientMessage :=
  setPropertyEv root "_NET_ACTIVE_WINDOW"
    (.ints [1, X_CurrentTime, (win.id : Int)]) (some win) none

/-- Embeds `EWMH.setShowingDesktop`. -/
def setShowingDesktop (root : Window) (show_ : IntOrBool) : ClientMessage :=
  setPropertyEv root "_NET_SHOWING_DESKTOP" (.ints [show_.toInt]) none none

/-- Embeds `EWMH.setCloseWindow`; `now` mocks `int(time.mktime(time.localtime()))`. -/
def setCloseWindow (root : Window) (now : Int) (win : Window) : ClientMessage :=
  setPropertyEv root "_NET_CLOSE_WINDOW" (.ints [now, 1]) (some win) none

/-- Embeds `EWMH.setWmName`. -/
def setWmName (root : Window) (win : Window) (name : String) : ClientMessage :=
  setPropertyEv root "_NET_WM_NAME" (.text name) (some win) none

/-- Embeds `EWMH.setWmVisibleName`. -/
def setWmVisibleName (root : Window) (win : Window) (name : String) : ClientMessage :=
  setPropertyEv root "_NET_WM_VISIBLE_NAME" (.text name) (some win) none

/-- Embeds `EWMH.setWmDesktop`. -/
def setWmDesktop (root : Window) (win : Window) (i : Int) : ClientMessage :=
  setPropertyEv root "_NET_WM_DESKTOP" (.ints [i, 1]) (some win) none

/-- Embeds `EWMH.setMoveResizeWindow`: the flags word starts as
`gravity | 0b0000100000000000` (source indicator); each supplied coordinate
ORs in its presence bit and each omitted one is replaced by `0`.  Gravity is
a `Nat` (an `Xlib.X.*Gravity` constant or `0`). -/
def setMoveResizeWindow (root : Window) (win : Window) (gravity : Nat)
    (x y w h : Option Int) : ClientMessage :=
  let gravity_flags := gravity ||| 0b0000100000000000
  let xf : Int × Nat := match x with
    | none => (0, gravity_flags)
    | some x => (x, gravity_flags ||| 0b0000000100000000)
  let yf : Int × Nat := match y with
    | none => (0, xf.2)
    | some y => (y, xf.2 ||| 0b0000001000000000)
  let wf : Int × Nat := match w with
    | none => (0, yf.2)
    | some w => (w, yf.2 ||| 0b0000010000000000)
  let hf : Int × Nat := match h with
    | none => (0, wf.2)
    | some h => (h, wf.2 ||| 0b0000100000000000)
  setPropertyEv root "_NET_MOVERESIZE_WINDOW"
    (.ints [(hf.2 : Int), xf.1, yf.1, wf.1, hf.1]) (some win) none

/-- Embeds `EWMH.setWmState`: each non-int state is interned first, then the payload
`[action, state, state2, 1]` is sent. -/
def setWmState (getAtom : String → Nat) (root : Window) (win : Window)
    (action : Int) (state : IntOrStr) (state2 : IntOrStr) : ClientMessage :=
  let st := resolveState getAtom state
  let st2 := resolveState getAtom state2
  setPropertyEv root "_NET_WM_STATE" (.ints [action, st, st2, 1]) (some win) none

/-! ### Dispatcher: `EWMH.__init__`'s tables and `getProperty` / `setProperty`

`EWMH.__init__` fills `self.__getAttrs` / `self.__setAttrs` with *bound*
methods (`self.getClientList`, ...).  `getProperty` and `setProperty` then
invoke a looked-up entry as `f(self, *args, **kwargs)`: calling a bound
method prepends its stored receiver, so the underlying function receives the
instance twice — once as `self` and once in the first parameter slot after
it.  Python binds positional arguments against the signature before the body
runs, raising `TypeError` on a count mismatch, so the model records each
method's span of accepted positional-argument counts beyond `self`
(defaulted parameters widen the span).  What a successfully bound handler
then does on the connection is abstracted by a `run` function returning the
handler's outcome together with the trace of its connection activity. -/

/-- A bound method stored in a dispatch table: the Python method name and the
least/greatest number of positional arguments its signature accepts after
`self`. -/
structure BoundMethod where
  pyName : String
  minArgs : Nat
  maxArgs : Nat
deriving DecidableEq, Repr

/-- Table `self.__getAttrs` of `EWMH.__init__`, in source order. -/
def getAttrs : List (String × BoundMethod) :=
  [("_NET_CLIENT_LIST", ⟨"getClientList", 0, 0⟩),
   ("_NET_CLIENT_LIST_STACKING", ⟨"getClientListStacking", 0, 0⟩),
   ("_NET_NUMBER_OF_DESKTOPS", ⟨"getNumberOfDesktops", 0, 0⟩),
   ("_NET_DESKTOP_GEOMETRY", ⟨"getDesktopGeometry", 0, 0⟩),
   ("_NET_DESKTOP_VIEWPORT", ⟨"getDesktopViewPort", 0, 0⟩),
   ("_NET_CURRENT_DESKTOP", ⟨"getCurrentDesktop", 0, 0⟩),
   ("_NET_ACTIVE_WINDOW", ⟨"getActiveWindow", 0, 0⟩),
   ("_NET_WORKAREA", ⟨"getWorkArea", 0, 0⟩),
   ("_NET_SHOWING_DESKTOP", ⟨"getShowingDesktop", 0, 0⟩),
   ("_NET_WM_NAME", ⟨"getWmName", 1, 1⟩),
   ("_NET_WM_VISIBLE_NAME", ⟨"getWmVisibleName", 1, 1⟩),
   ("_NET_WM_DESKTOP", ⟨"getWmDesktop", 1, 1⟩),
   ("_NET_WM_WINDOW_TYPE", ⟨"getWmWindowType", 1, 2⟩),
   ("_NET_WM_STATE", ⟨"getWmState", 1, 2⟩),
   ("_NET_WM_ALLOWED_ACTIONS", ⟨"getWmAllowedActions", 1, 2⟩),
   ("_NET_WM_PID", ⟨"getWmPid", 1, 1⟩)]

/-- Table `self.__setAttrs` of `EWMH.__init__`, in source order. -/
def setAttrs : List (String × BoundMethod) :=
  [("_NET_NUMBER_OF_DESKTOPS", ⟨"setNumberOfDesktops", 1, 1⟩),
   ("_NET_DESKTOP_GEOMETRY", ⟨"setDesktopGeometry", 2, 2⟩),
   ("_NET_DESKTOP_VIEWPORT", ⟨"setDesktopViewport", 2, 2⟩),
   ("_NET_CURRENT_DESKTOP", ⟨"setCurrentDesktop", 1, 1⟩),
   ("_NET_ACTIVE_WINDOW", ⟨"setActiveWindow", 1, 1⟩),
   ("_NET_SHOWING_DESKTOP", ⟨"setShowingDesktop", 1, 1⟩),
   ("_NET_CLOSE_WINDOW", ⟨"setCloseWindow", 1, 1⟩),
   ("_NET_MOVERESIZE_WINDOW", ⟨"setMoveResizeWindow", 1, 6⟩),
   ("_NET_WM_NAME", ⟨"setWmName", 2, 2⟩),
   ("_NET_WM_VISIBLE_NAME", ⟨"setWmVisibleName", 2, 2⟩),
   ("_NET_WM_DESKTOP", ⟨"setWmDesktop", 2, 2⟩),
   ("_NET_WM_STATE", ⟨"setWmState", 3, 4⟩)]

/-- Whether calling the bound method `f` with `args` positional arguments
binds: Python raises `TypeError` naming the method otherwise. -/
def bindsWith (f : BoundMethod) (args : Nat) : Bool :=
  f.minArgs ≤ args && args ≤ f.maxArgs

/-- Embeds `EWMH.getProperty(prop, *args)` with `nargs` caller arguments: a table
miss raises `KeyError('Unknown readable property: ...')` before any
connection activity; a hit evaluates `f(self, *args)`, i.e. passes
`nargs + 1` positional arguments to the bound method (the explicit `self`
plus the caller's), raising `TypeError` — again with no connection
activity — when that count does not bind; a binding call proceeds with the
getter's body, abstracted by `run`. -/
def getPropertyDispatch {α : Type} (run : BoundMethod → Nat → Except PyErr PyVal × List α)
    (prop : String) (nargs : Nat) : Except PyErr PyVal × List α :=
  match getAttrs.lookup prop with
  | none => (.error (.keyError ("Unknown readable property: " ++ prop)), [])
  | some f =>
      if bindsWith f (nargs + 1) then run f nargs
      else (.error (.typeError f.pyName), [])

/-- Embeds `EWMH.setProperty(prop, *args)` with `nargs` caller arguments: a table
miss raises `KeyError('Unknown writable property: ...')` with no client
message sent; a hit evaluates `f(self, *args)` on the bound setter, raising
`TypeError` (no message sent) when `nargs + 1` does not bind; a binding call
proceeds with the setter's body, abstracted by `run`, which yields the
messages it sends. -/
def setPropertyDispatch {α : Type} (run : BoundMethod → Nat → Except PyErr Unit × List α)
    (prop : String) (nargs : Nat) : Except PyErr Unit × List α :=
  match setAttrs.lookup prop with
  | none => (.error (.keyError ("Unknown writable property: " ++ prop)), [])
  | some f =>
      if bindsWith f (nargs + 1) then run f nargs
      else (.error (.typeError f.pyName), [])

/-- Embeds `EWMH.getReadableProperties`: the keys of `self.__getAttrs`. -/
def getReadableProperties : List String :=
  getAttrs.map Prod.fst

/-- Embeds `EWMH.getWritableProperties`: the keys of `self.__setAttrs`. -/
def getWritableProperties : List String :=
  setAttrs.map Prod.fst

/-! ### Spec-side definitions and shared lemmas -/

/-- Presence bit contributed by an optional coordinate, as the spec words it:
the coordinate's bit when it is supplied, clear otherwise. -/
def presenceBit (o : Option Int) (bit : Nat) : Nat :=
  if o.isSome then bit else 0

/-- Flags word of `_NET_MOVERESIZE_WINDOW` as the spec describes it: the
gravity value OR-ed with the source bit `0x0800` and with the presence bit
of each supplied coordinate (`0x0100` for x, `0x0200` for y, `0x0400` for w,
`0x0800` for h). -/
def specMoveResizeFlags (gravity : Nat) (x y w h : Option Int) : Nat :=
  gravity ||| 0x0800 ||| presenceBit x 0x0100 ||| presenceBit y 0x0200 |||
    presenceBit w 0x0400 ||| presenceBit h 0x0800

/-- Property catalog documented in the spec, each entry as its `_NET` atom
name (number-of-desktops, desktop-geometry, desktop-viewport,
current-desktop, active-window, workarea, showing-desktop, client-list,
client-list-stacking, close-window, moveresize-window, and the per-window
name, visible-name, desktop, window-type, state, allowed-actions, pid). -/
def specPropertyCatalog : List String :=
  ["_NET_NUMBER_OF_DESKTOPS", "_NET_DESKTOP_GEOMETRY", "_NET_DESKTOP_VIEWPORT",
   "_NET_CURRENT_DESKTOP", "_NET_ACTIVE_WINDOW", "_NET_WORKAREA",
   "_NET_SHOWING_DESKTOP", "_NET_CLIENT_LIST", "_NET_CLIENT_LIST_STACKING",
   "_NET_CLOSE_WINDOW", "_NET_MOVERESIZE_WINDOW", "_NET_WM_NAME",
   "_NET_WM_VISIBLE_NAME", "_NET_WM_DESKTOP", "_NET_WM_WINDOW_TYPE",
   "_NET_WM_STATE", "_NET_WM_ALLOWED_ACTIONS", "_NET_WM_PID"]

/-- Absorption: OR-ing in a word already contained in the left operand is the
identity, one step under another OR. -/
theorem lor_absorb {a b c : Nat} (h : a ||| c = a) : a ||| b ||| c = a ||| b := by
  rw [Nat.lor_assoc, Nat.lor_comm b c, ← Nat.lor_assoc, h]

/-- The source bit `0x0800` is absorbed by any flags word that already
contains it. -/
theorem lor_source_absorb (g px py pw : Nat) :
    g ||| 0x0800 ||| px ||| py ||| pw ||| 0x0800 = g ||| 0x0800 ||| px ||| py ||| pw := by
  apply lor_absorb
  apply lor_absorb
  apply lor_absorb
  rw [Nat.lor_assoc, Nat.or_self]

/-- The sequential flags computation of `setMoveResizeWindow` agrees with the
one-shot formula `specMoveResizeFlags`, and the payload is the flags word
followed by the four coordinates with omitted ones defaulted to `0`. -/
theorem setMoveResizeWindow_eq_spec_form (root win : Window) (gravity : Nat)
    (x y w h : Option Int) :
    setMoveResizeWindow root win gravity x y w h =
      setPropertyEv root "_NET_MOVERESIZE_WINDOW"
        (.ints [(specMoveResizeFlags gravity x y w h : Int),
                x.getD 0, y.getD 0, w.getD 0, h.getD 0]) (some win) none := by
  cases x <;> cases y <;> cases w <;> cases h <;>
    simp [setMoveResizeWindow, specMoveResizeFlags, presenceBit, Nat.or_zero]

/-- Padding an integer payload and then truncating to five slots is the same
as truncating to five slots and then padding up to five. -/
theorem pad5_take (l : List Int) :
    (l ++ List.replicate (5 - l.length) 0).take 5 =
      l.take 5 ++ List.replicate (5 - l.length) 0 := by
  rw [List.take_append_eq_append_take, List.take_replicate, Nat.min_self]

/-- A padded-and-truncated integer payload has exactly five slots. -/
theorem pad5_length (l : List Int) :
    (l.take 5 ++ List.replicate (5 - l.length) 0).length = 5 := by
  simp only [List.length_append, List.length_take, List.length_replicate]
  omega

/-! ### Claim theorems -/

/-- C2 counterexample: at gravity=0, x=10, y and w omitted, h=20, the client
message built by `setMoveResizeWindow` does not carry the claimed payload
`[0x0D00, 10, 0, 0, 20]` (its flags word is 0x0900, not 0x0D00). -/
theorem setMoveResizeWindow_example_not_0x0D00 :
    (setMoveResizeWindow ⟨1⟩ ⟨5⟩ 0 (some 10) none none (some 20)).data ≠
      PyData.ints [0x0D00, 10, 0, 0, 20] := by decide

/-- C2 (amended): at gravity=0, x=10, y and w omitted, h=20, the payload is
`[0x0900, 10, 0, 0, 20]` — indeed 0x0800 (source) OR 0x0100 (x present) OR
0x0800 (h present) evaluates to 0x0900. -/
theorem setMoveResizeWindow_example_payload :
    (setMoveResizeWindow ⟨1⟩ ⟨5⟩ 0 (some 10) none none (some 20)).data =
      PyData.ints [0x0900, 10, 0, 0, 20] ∧
    (0x0800 ||| 0x0100 ||| 0x0800 : Nat) = 0x0900 := by decide

/-- C4: for every gravity and every combination of supplied/omitted x, y, w,
h, the flags word is the gravity value OR-ed with 0x0800 and with the
presence bit of each supplied coordinate (0x0100/0x0200/0x0400/0x0800);
omitted coordinates contribute 0 and the data sent is the five format-32
words `[flags, x, y, w, h]`. -/
theorem setMoveResizeWindow_flags_and_payload (root win : Window) (gravity : Nat)
    (x y w h : Option Int) :
    (setMoveResizeWindow root win gravity x y w h).data =
      .ints [(specMoveResizeFlags gravity x y w h : Int),
             x.getD 0, y.getD 0, w.getD 0, h.getD 0] ∧
    (setMoveResizeWindow root win gravity x y w h).dataSize = 32 := by
  rw [setMoveResizeWindow_eq_spec_form]
  exact ⟨rfl, rfl⟩

/-- C5: the flags word is identical whether h is supplied or omitted (the
h-presence bit coincides with the always-set source bit 0x0800), so the two
client messages agree everywhere except the fifth payload slot. -/
theorem setMoveResizeWindow_h_invisible_in_flags (root win : Window)
    (gravity : Nat) (x y w : Option Int) (hv : Int) :
    specMoveResizeFlags gravity x y w (some hv) =
      specMoveResizeFlags gravity x y w none ∧
    (setMoveResizeWindow root win gravity x y w (some hv)).data =
      .ints [(specMoveResizeFlags gravity x y w none : Int),
             x.getD 0, y.getD 0, w.getD 0, hv] ∧
    (setMoveResizeWindow root win gravity x y w none).data =
      .ints [(specMoveResizeFlags gravity x y w none : Int),
             x.getD 0, y.getD 0, w.getD 0, 0] ∧
    setMoveResizeWindow root win gravity x y w (some hv) =
      { setMoveResizeWindow root win gravity x y w none with
          data := (setMoveResizeWindow root win gravity x y w (some hv)).data } := by
  have h1 : presenceBit (some hv) 0x0800 = 0x0800 := rfl
  have h2 : presenceBit (none : Option Int) 0x0800 = 0 := rfl
  have hflag : specMoveResizeFlags gravity x y w (some hv) =
      specMoveResizeFlags gravity x y w none := by
    unfold specMoveResizeFlags
    rw [h1, h2, Nat.or_zero]
    exact lor_source_absorb gravity (presenceBit x 0x0100) (presenceBit y 0x0200)
      (presenceBit w 0x0400)
  refine ⟨hflag, ?_, ?_, ?_⟩
  · rw [setMoveResizeWindow_eq_spec_form, hflag]
    rfl
  · rw [setMoveResizeWindow_eq_spec_form]
    rfl
  · rw [setMoveResizeWindow_eq_spec_form root win gravity x y w (some hv),
        setMoveResizeWindow_eq_spec_form root win gravity x y w none, hflag]
    rfl

/-- C8: an integer payload is right-padded with zeros and truncated to
exactly five 32-bit slots whatever its length, while a text payload
(wm-name, wm-visible-name) is sent as raw text with format 8 and no
padding; every named integer-list setter therefore sends exactly five
slots. -/
theorem setProperty_payload_shapes (root : Window) (t nm : String) (l : List Int)
    (s : String) (win win2 : Option Window) (mask : Option Nat) (w2 : Window)
    (nb gw gh i now act : Int) (b : IntOrBool) (st st2 : IntOrStr)
    (getAtom : String → Nat) :
    ((setPropertyEv root t (.ints l) win mask).data =
        .ints (l.take 5 ++ List.replicate (5 - l.length) 0) ∧
      (l.take 5 ++ List.replicate (5 - l.length) 0).length = 5 ∧
      (setPropertyEv root t (.ints l) win mask).dataSize = 32) ∧
    ((setPropertyEv root t (.text s) win2 mask).data = .text s ∧
      (setPropertyEv root t (.text s) win2 mask).dataSize = 8) ∧
    (setNumberOfDesktops root nb).data = .ints [nb, 0, 0, 0, 0] ∧
    (setDesktopGeometry root gw gh).data = .ints [gw, gh, 0, 0, 0] ∧
    (setDesktopViewport root gw gh).data = .ints [gw, gh, 0, 0, 0] ∧
    (setCurrentDesktop root i).data = .ints [i, X_CurrentTime, 0, 0, 0] ∧
    (setActiveWindow root w2).data = .ints [1, X_CurrentTime, (w2.id : Int), 0, 0] ∧
    (setShowingDesktop root b).data = .ints [b.toInt, 0, 0, 0, 0] ∧
    (setCloseWindow root now w2).data = .ints [now, 1, 0, 0, 0] ∧
    (setWmDesktop root w2 i).data = .ints [i, 1, 0, 0, 0] ∧
    (setWmState getAtom root w2 act st st2).data =
      .ints [act, resolveState getAtom st, resolveState getAtom st2, 1, 0] ∧
    (setWmName root w2 nm).data = .text nm ∧
    (setWmName root w2 nm).dataSize = 8 ∧
    (setWmVisibleName root w2 nm).data = .text nm := by
  refine ⟨⟨?_, pad5_length l, rfl⟩, ⟨rfl, rfl⟩, rfl, rfl, rfl, rfl, rfl, rfl,
    rfl, rfl, rfl, rfl, rfl, rfl⟩
  rw [← pad5_take l]
  rfl

/-- C3 counterexample: with `_NET_NUMBER_OF_DESKTOPS` absent,
`getNumberOfDesktops` subscripts the empty result and raises IndexError
instead of returning an absent value. -/
theorem getNumberOfDesktops_absent_raises :
    getNumberOfDesktops none = .error .indexError ∧
    getNumberOfDesktops none ≠ .ok .pynone :=
  ⟨rfl, fun h => Except.noConfusion h⟩

/-- C3 (amended): on absent data `_getProperty` itself never fails and yields
the empty value, so the list-typed getters return empty sequences, the text
getters return that empty value, and active-window and the per-window
desktop/pid getters return None — but the three root scalar getters
(number-of-desktops, current-desktop, showing-desktop) subscript the empty
result and raise IndexError. -/
theorem getters_on_absent_data :
    getClientList none = [] ∧
    getClientListStacking none = [] ∧
    getDesktopGeometry none = [] ∧
    getDesktopViewPort none = [] ∧
    getWorkArea none = [] ∧
    getWmName none = .ints [] ∧
    getWmVisibleName none = .ints [] ∧
    getActiveWindow none = none ∧
    getWmDesktop none = .ok .pynone ∧
    getWmPid none = .ok .pynone ∧
    (∀ (names : Nat → Option String) (b : Bool), getWmWindowType names none b = []) ∧
    (∀ (names : Nat → Option String) (b : Bool), getWmState names none b = []) ∧
    (∀ (names : Nat → Option String) (b : Bool), getWmAllowedActions names none b = []) ∧
    getNumberOfDesktops none = .error .indexError ∧
    getCurrentDesktop none = .error .indexError ∧
    getShowingDesktop none = .error .indexError := by
  refine ⟨rfl, rfl, rfl, rfl, rfl, rfl, rfl, rfl, rfl, rfl, ?_, ?_, ?_, rfl, rfl, rfl⟩ <;>
    (intro names b; cases b <;> rfl)

/-- Every window resolved from a client-list entry has the id it was resolved
from, hence never id 0. -/
theorem createWindow_entry_nonzero (wId : Nat) :
    (createWindow (some wId)).elim true (fun w => decide (w.id ≠ 0)) = true := by
  cases wId with
  | zero => rfl
  | succ n => simp [createWindow]

/-- C7: the window-id→handle conversion maps an absent or zero id to None and
resolves any non-zero id to the handle with that id; decoding an absent
active window yields None (not an error, not a zero handle); and neither
client list ever contains a handle built from id 0. -/
theorem window_handle_conversion :
    getActiveWindow none = none ∧
    createWindow none = none ∧
    createWindow (some 0) = none ∧
    (∀ wId : Nat, createWindow (some (wId + 1)) = some ⟨wId + 1⟩) ∧
    (∀ resp, (getActiveWindow resp).elim true (fun w => decide (w.id ≠ 0)) = true) ∧
    (∀ resp, (getClientList resp).all
        (fun ow => ow.elim true (fun w => decide (w.id ≠ 0))) = true) ∧
    (∀ resp, (getClientListStacking resp).all
        (fun ow => ow.elim true (fun w => decide (w.id ≠ 0))) = true) := by
  have hlist : ∀ l : List Nat,
      (l.map (fun w => createWindow (some w))).all
        (fun ow => ow.elim true (fun w => decide (w.id ≠ 0))) = true := by
    intro l
    rw [List.all_eq_true]
    intro ow how
    obtain ⟨a, _, rfl⟩ := List.mem_map.mp how
    exact createWindow_entry_nonzero a
  refine ⟨rfl, rfl, rfl, fun wId => rfl, ?_, ?_, ?_⟩
  · intro resp
    match resp with
    | none => rfl
    | some [] => rfl
    | some (a :: t) => exact createWindow_entry_nonzero a
  · intro resp
    exact hlist (getPropertyInts resp)
  · intro resp
    exact hlist (getPropertyInts resp)

/-- C9: with symbolic names requested, each ATOM code is resolved
independently — entry i of the result is exactly the looked-up name of code
i, a failed lookup yielding the placeholder "UNKNOWN" for that entry only —
the call is total with one entry per code, and without the flag the raw
codes come back; a concrete run shows one failing code amid resolving
ones. -/
theorem atom_name_resolution_graceful :
    (∀ (names : Nat → Option String) (resp : Option (List Nat)) (i : Nat),
        (getWmWindowType names resp true)[i]? =
          ((getPropertyInts resp)[i]?).map
            (fun c => PyVal.str (match names c with | some n => n | none => "UNKNOWN"))) ∧
    (∀ (names : Nat → Option String) (resp : Option (List Nat)) (i : Nat),
        (getWmState names resp true)[i]? =
          ((getPropertyInts resp)[i]?).map
            (fun c => PyVal.str (match names c with | some n => n | none => "UNKNOWN"))) ∧
    (∀ (names : Nat → Option String) (resp : Option (List Nat)) (i : Nat),
        (getWmAllowedActions names resp true)[i]? =
          ((getPropertyInts resp)[i]?).map
            (fun c => PyVal.str (match names c with | some n => n | none => "UNKNOWN"))) ∧
    (∀ (names : Nat → Option String) (resp : Option (List Nat)),
        (getWmState names resp true).length = (getPropertyInts resp).length) ∧
    (∀ (names : Nat → Option String) (resp : Option (List Nat)),
        getWmState names resp false = (getPropertyInts resp).map PyVal.int) ∧
    getWmState (fun c => if c = 5 then some "FIVE" else if c = 9 then some "NINE" else none)
        (some [5, 7, 9]) true = [.str "FIVE", .str "UNKNOWN", .str "NINE"] := by
  refine ⟨?_, ?_, ?_, ?_, ?_, by decide⟩ <;> intro names resp <;>
    simp [getWmWindowType, getWmState, getWmAllowedActions, getAtomName,
      List.getElem?_map]

/-- C1 at a concrete failing input: `__init__` stores *bound* methods in the
dispatch tables, yet `getProperty`/`setProperty` invoke them as
`f(self, *args)`, so the underlying method receives the instance twice and a
correctly-supplied argument list no longer binds.  Dispatching
`_NET_NUMBER_OF_DESKTOPS` with the documented arguments raises TypeError
(with no connection activity), whatever the bound getter would have done,
while the named accessors succeed on the same inputs. -/
theorem dispatch_passes_self_twice :
    (∀ (α : Type) (run : BoundMethod → Nat → Except PyErr PyVal × List α),
        getPropertyDispatch run "_NET_NUMBER_OF_DESKTOPS" 0 =
          (.error (.typeError "getNumberOfDesktops"), [])) ∧
    getNumberOfDesktops (some (.ints [4])) = .ok (.int 4) ∧
    (∀ (α : Type) (run : BoundMethod → Nat → Except PyErr Unit × List α),
        setPropertyDispatch run "_NET_NUMBER_OF_DESKTOPS" 1 =
          (.error (.typeError "setNumberOfDesktops"), [])) ∧
    (setNumberOfDesktops ⟨1⟩ 4).data = .ints [4, 0, 0, 0, 0] :=
  ⟨fun _ _ => rfl, rfl, fun _ _ => rfl, rfl⟩

/-- C6: a name missing from the readable table makes `getProperty` fail with
KeyError 'Unknown readable property: name' before any handler runs, so no
connection request is made; symmetrically `setProperty` fails with
KeyError 'Unknown writable property: name' and sends nothing — whatever the
registered handlers would do. -/
theorem unknown_property_name_fails_cleanly :
    (∀ (α : Type) (run : BoundMethod → Nat → Except PyErr PyVal × List α)
        (prop : String) (nargs : Nat), getAttrs.lookup prop = none →
        getPropertyDispatch run prop nargs =
          (.error (.keyError ("Unknown readable property: " ++ prop)), [])) ∧
    (∀ (α : Type) (run : BoundMethod → Nat → Except PyErr Unit × List α)
        (prop : String) (nargs : Nat), setAttrs.lookup prop = none →
        setPropertyDispatch run prop nargs =
          (.error (.keyError ("Unknown writable property: " ++ prop)), [])) := by
  constructor <;> intro α run prop nargs h <;>
    simp [getPropertyDispatch, setPropertyDispatch, h]

/-- C6 witness at the concrete unregistered name `_NET_WM_ICON`. -/
theorem unknown_property_name_fails_cleanly_witness :
    getAttrs.lookup "_NET_WM_ICON" = none ∧
    getPropertyDispatch (fun _ _ => (Except.ok PyVal.pynone, ([] : List Unit)))
        "_NET_WM_ICON" 0 =
      (.error (.keyError ("Unknown readable property: " ++ "_NET_WM_ICON")), []) ∧
    setAttrs.lookup "_NET_WM_ICON" = none ∧
    setPropertyDispatch (fun _ _ => (Except.ok (), ([] : List Unit)))
        "_NET_WM_ICON" 1 =
      (.error (.keyError ("Unknown writable property: " ++ "_NET_WM_ICON")), []) :=
  ⟨rfl,
   unknown_property_name_fails_cleanly.1 Unit _ "_NET_WM_ICON" 0 rfl,
   rfl,
   unknown_property_name_fails_cleanly.2 Unit _ "_NET_WM_ICON" 1 rfl⟩

/-- C10: the readable and writable name sets are as documented: their union
is exactly the spec's property catalog; client-list, client-list-stacking,
workarea, window-type, allowed-actions and pid are readable only;
close-window and moveresize-window are writable only; and every registered
name has an accessor entry in its table. -/
theorem property_tables_match_catalog :
    getReadableProperties.toFinset ∪ getWritableProperties.toFinset =
      specPropertyCatalog.toFinset ∧
    getReadableProperties.filter (fun n => !getWritableProperties.contains n) =
      ["_NET_CLIENT_LIST", "_NET_CLIENT_LIST_STACKING", "_NET_WORKAREA",
       "_NET_WM_WINDOW_TYPE", "_NET_WM_ALLOWED_ACTIONS", "_NET_WM_PID"] ∧
    getWritableProperties.filter (fun n => !getReadableProperties.contains n) =
      ["_NET_CLOSE_WINDOW", "_NET_MOVERESIZE_WINDOW"] ∧
    getReadableProperties.all (fun n => (getAttrs.lookup n).isSome) = true ∧
    getWritableProperties.all (fun n => (setAttrs.lookup n).isSome) = true := by
  refine ⟨by decide, by decide, by decide, by decide, by decide⟩

end Ewmh
